import Mathlib

/-!
Verification of the scheduling engine in `src/engine.rs` (crate `spide-rs`).

The engine's data model (`AppArg`, the buffers of `App`) and the code regions of
`App::run` cited by the claims are embedded shallowly: Rust `Vec` becomes `List`
(push appends at the end, pop takes from the end), `u64` timestamps become `Nat`,
and each region of the loop body becomes a pure Lean function.  Collaborators whose
source is outside `src/` (`Response::parse_all`, `Request::gen`, the pipeline and
fetch/profile executors) are modelled from the spec, as noted on their doc comments;
concurrent operations are modelled by recording, at dispatch, the items the
operation will eventually write, which are merged when the operation is joined.
-/

namespace SpideRs

/-- A crawl Task; the engine treats its payload as a black box. -/
structure Task where
  tag : Nat
deriving DecidableEq

/-- An acquired Profile; the engine treats its payload as a black box. -/
structure Profile where
  tag : Nat
deriving DecidableEq

/-- A Request: the engine reads only its not-before time `able` (seconds). -/
structure Request where
  able : Nat
  tag : Nat
deriving DecidableEq

/-- A Response; the engine treats its payload as a black box. -/
structure Response where
  tag : Nat
deriving DecidableEq

/-- `AppArg` from `src/engine.rs`, the backpressure configuration. -/
structure AppArg where
  round_req : Nat
  round_req_min : Nat
  round_req_max : Nat
  round_task : Nat
  round_task_min : Nat
  round_res : Nat
  profile_min : Nat
  profile_max : Nat
  round_yield_err : Nat
  round_result : Nat
  skip_history : Bool
deriving DecidableEq

/-- `impl Default for AppArg` from `src/engine.rs`. -/
def AppArg.default : AppArg :=
  { round_req := 100, round_req_min := 300, round_req_max := 700,
    round_task := 100, round_task_min := 7, round_res := 100,
    profile_min := 3000, profile_max := 10000,
    round_yield_err := 100, round_result := 100, skip_history := false }

/-- The buffers and sinks of `App<Entity>`: `task`, `profile`, `req` (scheduled),
`req_tmp` (ready), `res` (responses), `result` (Entity sink), `yield_err` (error
sink).  Rust `Vec` order is list order: push appends at the end, pop removes the
last element. -/
structure Store (E : Type) where
  task : List Task
  profile : List Profile
  req : List Request
  req_tmp : List Request
  res : List Response
  result : List E
  yield_err : List String
deriving DecidableEq

/-- An in-flight fetch operation: the Responses it will have appended to the shared
response buffer by the time it is joined. -/
structure FetchOp where
  responses : List Response
deriving DecidableEq

/-- An in-flight profile-acquisition operation: the Profiles it will have appended
to the shared pool by the time it is joined. -/
structure ProfileOp where
  profiles : List Profile
deriving DecidableEq

/-- The engine state: the Work Store plus the two in-flight-operation registries
`fut_res` and `fut_profile` (each entry carries its enqueue timestamp). -/
structure EngState (E : Type) where
  store : Store E
  fut_res : List (Nat × FetchOp)
  fut_profile : List (Nat × ProfileOp)
deriving DecidableEq

/-- What one Response yields when extracted: new Tasks, new Requests, Entities,
and extraction-error strings. -/
structure ExtractOut (E : Type) where
  tasks : List Task
  reqs : List Request
  items : List E
  errs : List String

/-- The external collaborators, abstracted: the extraction callback (spider plus
middleware), the Responses a dispatched fetch batch eventually produces, the
Profiles one profile-acquisition batch eventually yields, and the crawl policy's
seed tasks (`entry_task`). -/
structure Ctx (E : Type) where
  extract : Response → ExtractOut E
  fetchResult : List Request → List Response
  profileBatch : List Profile
  seedTasks : List Task

/-- Observable collaborator invocations of one step; `dflt` is true when the
default (built-in) pipeline was handed the sink rather than a supplied one. -/
inductive Event where
  | fetchDispatch : Event
  | profileDispatch : Event
  | itemFlush (dflt : Bool) : Event
  | errFlush (dflt : Bool) : Event
  | teardown : Event
deriving DecidableEq

/-- The value of the interrupt flag observed at the top of a loop iteration:
`zero` (no signal) or `sigint` (the flag was set by the SIGINT handler). -/
inductive Sig where
  | zero : Sig
  | sigint : Sig
deriving DecidableEq

/-- The normal-path termination test at the top of a `Running` tick
(`src/engine.rs` lines 153-157): it consults exactly `yield_err`, `req`, `task`,
`result` and `profile`. -/
def allDone {E : Type} (s : Store E) : Bool :=
  s.yield_err.isEmpty && s.req.isEmpty && s.task.isEmpty &&
    s.result.isEmpty && s.profile.isEmpty

/-- The body of the promote loop (`src/engine.rs` lines 167-177): the first
argument is the scheduled buffer in pop order (reversed), and one element is
popped per iteration — pushed onto the ready buffer when `able <= now`, dropped
otherwise — with the high-watermark break tested after the conditional push.
Returns the un-popped remainder (still in pop order) and the ready buffer. -/
def promoteRun (now rmax : Nat) : List Request → List Request → List Request × List Request
  | [], rt => ([], rt)
  | r :: rest, rt =>
    let rt' := if r.able ≤ now then rt ++ [r] else rt
    if rt'.length > rmax then (rest, rt')
    else promoteRun now rmax rest rt'

/-- Step 2 of a tick (`src/engine.rs` lines 165-178): when the ready buffer is at
or below `round_req_min`, pop `req.len()` times from the scheduled buffer,
promoting eligible Requests.  Returns the new scheduled and ready buffers. -/
def promoteStep (args : AppArg) (now : Nat) (req req_tmp : List Request) :
    List Request × List Request :=
  if req_tmp.length ≤ args.round_req_min then
    let p := promoteRun now args.round_req_max req.reverse req_tmp
    (p.1.reverse, p.2)
  else (req, req_tmp)

/-- Pop `n` elements off the end of a list (`Vec::pop` repeated): returns the
popped elements in pop order and the remainder. -/
def popN {α : Type} : Nat → List α → List α × List α
  | 0, l => ([], l)
  | n + 1, l =>
    match l.getLast? with
    | none => ([], l)
    | some x =>
      let p := popN n l.dropLast
      (x :: p.1, p.2)

/-- The profile-replenishment condition (`src/engine.rs` lines 194-198):
`less = len <= profile_min`, `exceed = !less && len <= profile_max && now % 3 == 1`,
dispatch when `exceed || less`. -/
def profileDispatchCond (args : AppArg) (plen now : Nat) : Bool :=
  let less := decide (plen ≤ args.profile_min)
  let exceed := !less && decide (plen ≤ args.profile_max) && decide (now % 3 = 1)
  exceed || less

/-- Modelled from the spec: `Response::parse_all` (the extraction middleware; its
source is outside `src/`).  It hands up to `n` buffered Responses to the
extraction callback, which yields new Tasks, Requests, Entities and
ExtractionErrors, merged (appended) into the Work Store. -/
def parse_all {E : Type} (ex : Response → ExtractOut E) : Nat → Store E → Store E
  | 0, s => s
  | n + 1, s =>
    match s.res.getLast? with
    | none => s
    | some r =>
      parse_all ex n
        { s with res := s.res.dropLast,
                 task := s.task ++ (ex r).tasks,
                 req := s.req ++ (ex r).reqs,
                 result := s.result ++ (ex r).items,
                 yield_err := s.yield_err ++ (ex r).errs }

/-- Steps 6 and 7 of a tick (`src/engine.rs` lines 216-227): flush the error sink,
then the Entity sink, each only when strictly above its threshold and only when a
pipeline was supplied (`pline` is `Some`); with `pline = None` the arms are empty.
A supplied pipeline consumes the sink it is handed (modelled from the spec).
Returns the store and the flush invocations performed. -/
def flushStep {E : Type} (hasP : Bool) (args : AppArg) (s : Store E) :
    Store E × List Event :=
  let p1 :=
    if s.yield_err.length > args.round_yield_err then
      if hasP then ({ s with yield_err := [] }, [Event.errFlush false]) else (s, [])
    else (s, [])
  let p2 :=
    if p1.1.result.length > args.round_result then
      if hasP then ({ p1.1 with result := [] }, [Event.itemFlush false]) else (p1.1, [])
    else (p1.1, [])
  (p2.1, p1.2 ++ p2.2)

/-- Step 8 of a tick (`src/engine.rs` lines 230-235): when the Profile pool is
strictly below `round_task_min`, pop the most recently registered in-flight
profile operation and await it (its Profiles join the pool); `pop().unwrap()` on
an empty registry aborts the run, modelled as `Except.error`. -/
def profileGate (round_task_min plen : Nat) (fut_profile : List (Nat × ProfileOp)) :
    Except String (List (Nat × ProfileOp) × List Profile) :=
  if round_task_min > plen then
    match fut_profile.getLast? with
    | none => Except.error ("no in-flight profile operation to join")
    | some jh => Except.ok (fut_profile.dropLast, jh.2.profiles)
  else Except.ok (fut_profile, [])

/-- Modelled from the spec: `Request::gen` (its source is outside `src/`) converts
up to `n` Tasks into Requests, each consuming one Profile from the pool; a Task
that cannot obtain a Profile is left for a later tick.  Minted Requests are pushed
onto the scheduled buffer. -/
def requestGen {E : Type} (n : Nat) (s : Store E) : Store E :=
  let k := min n (min s.task.length s.profile.length)
  let minted := (popN k s.task).1.map (fun t => ({ able := 0, tag := t.tag } : Request))
  { s with task := (popN k s.task).2, profile := (popN k s.profile).2,
           req := s.req ++ minted }

/-- One `Running` tick (`src/engine.rs` lines 151-241), in source order:
termination check, promote, fetch-batch dispatch (a batch is spawned and
registered every tick), conditional profile dispatch, response extraction capped
at `round_res`, conditional sink flushes, the profile-sufficiency gate, request
minting.  Returns the new state, whether the loop exited (`break`), and the
collaborator invocations; the gate's fault aborts via `Except.error`. -/
def runningTick {E : Type} (ctx : Ctx E) (hasP : Bool) (args : AppArg) (now : Nat)
    (st : EngState E) : Except String (EngState E × Bool × List Event) :=
  if allDone st.store then Except.ok (st, true, [])
  else
    let p := promoteStep args now st.store.req st.store.req_tmp
    let q := popN (min args.round_req p.2.length) p.2
    let fut_res' := st.fut_res ++ [(now, ({ responses := ctx.fetchResult q.1 } : FetchOp))]
    let s1 := { st.store with req := p.1, req_tmp := q.2 }
    let cond := profileDispatchCond args s1.profile.length now
    let fut_profile' :=
      if cond then st.fut_profile ++ [(now, ({ profiles := ctx.profileBatch } : ProfileOp))]
      else st.fut_profile
    let s2 := parse_all ctx.extract args.round_res s1
    let f := flushStep hasP args s2
    match profileGate args.round_task_min f.1.profile.length fut_profile' with
    | Except.error e => Except.error e
    | Except.ok g =>
      let s4 := { f.1 with profile := f.1.profile ++ g.2 }
      Except.ok ({ store := requestGen args.round_task s4,
                   fut_res := fut_res', fut_profile := g.1 },
        false,
        [Event.fetchDispatch] ++ (if cond then [Event.profileDispatch] else []) ++ f.2)

/-- The SIGINT arm (`src/engine.rs` lines 118-149): pop and join every registered
in-flight fetch operation (their Responses land in the response buffer), extract
all buffered Responses (`parse_all` with cap 99999999), hand both sinks to the
supplied pipeline — or, when none was supplied, to the default pipeline (which
performs no external write and leaves the sinks as they are) — then invoke the
crawl policy's teardown hook (`close_spider`).  Returns the state and the
invocations performed. -/
def drainStep {E : Type} (ctx : Ctx E) (hasP : Bool) (st : EngState E) :
    EngState E × List Event :=
  let joined := (st.fut_res.reverse.map (fun p => p.2.responses)).flatten
  let s2 := parse_all ctx.extract 99999999 { st.store with res := st.store.res ++ joined }
  let s3 := if hasP then { s2 with result := [], yield_err := [] } else s2
  ({ store := s3, fut_res := [], fut_profile := st.fut_profile },
   [Event.itemFlush (!hasP), Event.errFlush (!hasP), Event.teardown])

/-- One iteration of the `loop` in `App::run` (`src/engine.rs` lines 111-246),
keyed on the observed interrupt flag.  The SIGINT arm ends without a `break`, so
it reports the loop as not exited; the `Running` arm is `runningTick`. -/
def iteration {E : Type} (ctx : Ctx E) (hasP : Bool) (args : AppArg) (now : Nat)
    (sig : Sig) (st : EngState E) : Except String (EngState E × Bool × List Event) :=
  match sig with
  | Sig.sigint =>
    let d := drainStep ctx hasP st
    Except.ok (d.1, false, d.2)
  | Sig.zero => runningTick ctx hasP args now st

/-- The pre-loop seeding (`src/engine.rs` lines 102-109): the branch is taken when
`args.skip_history` is **true**, in which case one profile-acquisition batch is
awaited and the crawl policy's `entry_task` output is appended to the task
buffer; otherwise the store is untouched. -/
def runInit {E : Type} (ctx : Ctx E) (args : AppArg) (s : Store E) : Store E :=
  if args.skip_history then
    { s with profile := s.profile ++ ctx.profileBatch, task := s.task ++ ctx.seedTasks }
  else s

/-- A degenerate collaborator set over `Entity := Nat`: extraction yields nothing,
fetches produce no Responses, profile batches and seed tasks are empty. -/
def trivCtx : Ctx Nat :=
  { extract := fun _ => { tasks := [], reqs := [], items := [], errs := [] },
    fetchResult := fun _ => [], profileBatch := [], seedTasks := [] }

/-- The all-empty Work Store over `Entity := Nat`. -/
def emptyStore : Store Nat :=
  { task := [], profile := [], req := [], req_tmp := [], res := [],
    result := [], yield_err := [] }

theorem promoteRun_mem (now rmax : Nat) :
    ∀ (l rt : List Request) (r : Request),
      r ∈ (promoteRun now rmax l rt).2 → r ∈ rt ∨ r.able ≤ now := by
  intro l
  induction l with
  | nil =>
    intro rt r h
    exact Or.inl h
  | cons a tl ih =>
    intro rt r h
    by_cases ha : a.able ≤ now
    · by_cases hl : (rt ++ [a]).length > rmax
      · simp only [promoteRun, if_pos ha, if_pos hl] at h
        rcases List.mem_append.mp h with h1 | h1
        · exact Or.inl h1
        · rw [List.mem_singleton.mp h1]
          exact Or.inr ha
      · simp only [promoteRun, if_pos ha, if_neg hl] at h
        rcases ih (rt ++ [a]) r h with h1 | h1
        · rcases List.mem_append.mp h1 with h2 | h2
          · exact Or.inl h2
          · rw [List.mem_singleton.mp h2]
            exact Or.inr ha
        · exact Or.inr h1
    · by_cases hl : rt.length > rmax
      · simp only [promoteRun, if_neg ha, if_pos hl] at h
        exact Or.inl h
      · simp only [promoteRun, if_neg ha, if_neg hl] at h
        exact ih rt r h

theorem promoteRun_length (now rmax : Nat) :
    ∀ (l rt : List Request), rt.length ≤ rmax →
      (promoteRun now rmax l rt).2.length ≤ rmax + 1 := by
  intro l
  induction l with
  | nil =>
    intro rt h
    exact Nat.le_succ_of_le h
  | cons a tl ih =>
    intro rt h
    by_cases ha : a.able ≤ now
    · by_cases hl : (rt ++ [a]).length > rmax
      · simp only [promoteRun, if_pos ha, if_pos hl]
        simp [List.length_append]
        omega
      · simp only [promoteRun, if_pos ha, if_neg hl]
        exact ih (rt ++ [a]) (Nat.le_of_not_lt hl)
    · by_cases hl : rt.length > rmax
      · simp only [promoteRun, if_neg ha, if_pos hl]
        exact Nat.le_succ_of_le h
      · simp only [promoteRun, if_neg ha, if_neg hl]
        exact ih rt h

/-- C1: code bug — the SIGINT arm of the loop has no `break`: every iteration
that observes the interrupt flag runs the full drain, including the teardown
hook, and reports the loop as not exited, so the drain re-runs on every
subsequent iteration (the flag stays set) and `run` never leaves the loop to
return `Ok`. -/
theorem sigint_arm_never_exits {E : Type} (ctx : Ctx E) (hasP : Bool) (args : AppArg)
    (now : Nat) (st : EngState E) :
    ∃ st' evs, iteration ctx hasP args now Sig.sigint st = Except.ok (st', false, evs) ∧
      Event.teardown ∈ evs := by
  refine ⟨(drainStep ctx hasP st).1, (drainStep ctx hasP st).2, rfl, ?_⟩
  simp [drainStep]

/-- C2: code bug — a Request popped from the scheduled buffer whose not-before
time is still in the future is pushed to neither buffer: at `now = 0`, promoting
with scheduled buffer `[Request with able 5]` and an empty ready buffer returns
both buffers empty; the Request is lost instead of being returned. -/
theorem promote_loses_ineligible_request :
    promoteStep AppArg.default 0 [({ able := 5, tag := 0 } : Request)] [] = ([], []) := by
  rfl

/-- C3 counterexample: a store whose only occupant is one Request in the ready
buffer `req_tmp` passes the termination check — the tick exits the loop with no
dispatch even though a work buffer (the ready buffer) is not empty, so the exit
does not require all five buffers to be simultaneously empty. -/
theorem termination_check_ignores_ready_buffer :
    runningTick trivCtx false AppArg.default 0
        ⟨{ emptyStore with req_tmp := [{ able := 0, tag := 0 }] }, [], []⟩ =
      Except.ok
        (⟨{ emptyStore with req_tmp := [{ able := 0, tag := 0 }] }, [], []⟩, true, []) ∧
    ({ emptyStore with req_tmp := [{ able := 0, tag := 0 }] } : Store Nat).req_tmp ≠ [] := by
  exact ⟨rfl, by decide⟩

/-- C3 (amended): the termination check consults exactly the error sink, the
scheduled-request buffer, the task buffer, the Entity sink and the Profile pool —
not the ready buffer and not the response buffer — and passes iff those five are
simultaneously empty; whenever it passes, the tick exits the loop immediately
with no operation dispatched. -/
theorem termination_check_characterization {E : Type} (ctx : Ctx E) (hasP : Bool)
    (args : AppArg) (now : Nat) (s : Store E) (fr : List (Nat × FetchOp))
    (fp : List (Nat × ProfileOp)) :
    (allDone s = true ↔
      (s.yield_err = [] ∧ s.req = [] ∧ s.task = [] ∧ s.result = [] ∧ s.profile = [])) ∧
    (allDone s = true →
      runningTick ctx hasP args now ⟨s, fr, fp⟩ = Except.ok (⟨s, fr, fp⟩, true, [])) := by
  constructor
  · simp only [allDone, Bool.and_eq_true, List.isEmpty_iff]
    tauto
  · intro h
    simp [runningTick, h]

/-- Witness for `termination_check_characterization` at the all-empty store. -/
theorem termination_check_characterization_witness :
    runningTick trivCtx false AppArg.default 0 ⟨emptyStore, [], []⟩ =
      Except.ok (⟨emptyStore, [], []⟩, true, []) :=
  (termination_check_characterization trivCtx false AppArg.default 0
    emptyStore [] []).2 (by decide)

/-- C4 counterexample: with the default configuration (`skip_history = false`) and
a crawl policy carrying one seed task, the pre-loop seeding leaves the store
untouched — no profile batch and no seed task is installed — contradicting the
claim that a false flag triggers the seed. -/
theorem skip_history_false_performs_no_seed :
    runInit { trivCtx with seedTasks := [{ tag := 7 }] } AppArg.default emptyStore =
      emptyStore ∧
    AppArg.default.skip_history = false ∧
    ({ trivCtx with seedTasks := [{ tag := 7 }] } : Ctx Nat).seedTasks ≠ [] := by
  refine ⟨rfl, rfl, by decide⟩

/-- C4 (amended): the engine performs the initial seed — one awaited
profile-acquisition batch appended to the Profile pool plus the crawl policy's
seed tasks appended to the task buffer — before entering the loop exactly when
`skip_history` is true; when the flag is false no seed is performed. -/
theorem seed_iff_skip_history {E : Type} (ctx : Ctx E) (args : AppArg) (s : Store E) :
    (args.skip_history = true →
      runInit ctx args s =
        { s with profile := s.profile ++ ctx.profileBatch,
                 task := s.task ++ ctx.seedTasks }) ∧
    (args.skip_history = false → runInit ctx args s = s) := by
  constructor <;> intro h <;> simp [runInit, h]

/-- Witness for `seed_iff_skip_history` with the flag set. -/
theorem seed_iff_skip_history_witness :
    runInit trivCtx { AppArg.default with skip_history := true } emptyStore =
      { emptyStore with profile := emptyStore.profile ++ trivCtx.profileBatch,
                        task := emptyStore.task ++ trivCtx.seedTasks } :=
  (seed_iff_skip_history trivCtx { AppArg.default with skip_history := true }
    emptyStore).1 rfl

/-- C5: every Request that the promote step (step 2) moves into the ready buffer
`req_tmp` satisfied `able <= now` at the tick that promoted it; since the fetch
dispatch (step 3) pops only from the ready buffer, no Request reaches a dispatch
batch before its not-before time has elapsed relative to some tick's observed
current time. -/
theorem promoted_requests_are_eligible (args : AppArg) (now : Nat)
    (req req_tmp : List Request) (r : Request)
    (hmem : r ∈ (promoteStep args now req req_tmp).2) (hnew : r ∉ req_tmp) :
    r.able ≤ now := by
  unfold promoteStep at hmem
  by_cases hg : req_tmp.length ≤ args.round_req_min
  · rw [if_pos hg] at hmem
    rcases promoteRun_mem now args.round_req_max req.reverse req_tmp r hmem with h | h
    · exact absurd h hnew
    · exact h
  · rw [if_neg hg] at hmem
    exact absurd hmem hnew

/-- Witness for `promoted_requests_are_eligible`: a Request with `able = 0`
promoted at `now = 0` into an empty ready buffer. -/
theorem promoted_requests_are_eligible_witness :
    ({ able := 0, tag := 1 } : Request).able ≤ 0 :=
  promoted_requests_are_eligible AppArg.default 0 [{ able := 0, tag := 1 }] []
    { able := 0, tag := 1 } (by decide) (by decide)

/-- C6 counterexample: with low watermark 1 and high watermark 1, promoting two
eligible scheduled Requests into an empty ready buffer leaves the ready buffer
holding 2 > 1 Requests immediately after step 2, because the high-watermark break
is tested only after the push. -/
theorem ready_buffer_exceeds_high_watermark :
    ¬ ((promoteStep { AppArg.default with round_req_min := 1, round_req_max := 1 } 0
          [({ able := 0, tag := 0 } : Request), { able := 0, tag := 1 }] []).2.length ≤
        ({ AppArg.default with
            round_req_min := 1, round_req_max := 1 } : AppArg).round_req_max) := by
  decide

/-- C6 (amended): provided the ready buffer held at most `round_req_max` Requests
beforehand, it holds at most `round_req_max + 1` immediately after the promote
step (the high-watermark break is tested only after a push, so the bound sits one
above the watermark); and the promote step does not run at all when the ready
buffer is strictly above the low watermark `round_req_min`. -/
theorem ready_buffer_high_watermark_plus_one (args : AppArg) (now : Nat)
    (req req_tmp : List Request) (h : req_tmp.length ≤ args.round_req_max) :
    (promoteStep args now req req_tmp).2.length ≤ args.round_req_max + 1 ∧
      (args.round_req_min < req_tmp.length →
        promoteStep args now req req_tmp = (req, req_tmp)) := by
  constructor
  · unfold promoteStep
    by_cases hg : req_tmp.length ≤ args.round_req_min
    · rw [if_pos hg]
      exact promoteRun_length now args.round_req_max req.reverse req_tmp h
    · rw [if_neg hg]
      exact Nat.le_succ_of_le h
  · intro hgt
    unfold promoteStep
    rw [if_neg (by omega)]

/-- Witness for `ready_buffer_high_watermark_plus_one` at the default watermarks. -/
theorem ready_buffer_high_watermark_plus_one_witness :
    (promoteStep AppArg.default 0 [({ able := 0, tag := 0 } : Request)] []).2.length ≤
      AppArg.default.round_req_max + 1 :=
  (ready_buffer_high_watermark_plus_one AppArg.default 0 [{ able := 0, tag := 0 }] []
    (by decide)).1

theorem parse_all_frame {E : Type} (ex : Response → ExtractOut E) :
    ∀ (n : Nat) (s : Store E),
      (parse_all ex n s).req_tmp = s.req_tmp ∧
      (parse_all ex n s).profile = s.profile ∧
      (∃ t, (parse_all ex n s).task = s.task ++ t) ∧
      (∃ rq, (parse_all ex n s).req = s.req ++ rq) ∧
      (∃ a, (parse_all ex n s).result = s.result ++ a) ∧
      (∃ b, (parse_all ex n s).yield_err = s.yield_err ++ b) := by
  intro n
  induction n with
  | zero =>
    intro s
    exact ⟨rfl, rfl, ⟨[], (List.append_nil _).symm⟩, ⟨[], (List.append_nil _).symm⟩,
      ⟨[], (List.append_nil _).symm⟩, ⟨[], (List.append_nil _).symm⟩⟩
  | succ m ih =>
    intro s
    rcases hg : s.res.getLast? with _ | r
    · simp only [parse_all, hg]
      refine ⟨by simp, by simp, ⟨[], by simp⟩, ⟨[], by simp⟩, ⟨[], by simp⟩,
        ⟨[], by simp⟩⟩
    · simp only [parse_all, hg]
      obtain ⟨h1, h2, ⟨t, ht⟩, ⟨rq, hr⟩, ⟨a, ha⟩, ⟨b, hb⟩⟩ :=
        ih { s with res := s.res.dropLast, task := s.task ++ (ex r).tasks,
                    req := s.req ++ (ex r).reqs, result := s.result ++ (ex r).items,
                    yield_err := s.yield_err ++ (ex r).errs }
      refine ⟨by simpa using h1, by simpa using h2,
        ⟨(ex r).tasks ++ t, by simpa [List.append_assoc] using ht⟩,
        ⟨(ex r).reqs ++ rq, by simpa [List.append_assoc] using hr⟩,
        ⟨(ex r).items ++ a, by simpa [List.append_assoc] using ha⟩,
        ⟨(ex r).errs ++ b, by simpa [List.append_assoc] using hb⟩⟩

theorem parse_all_nil {E : Type} (ex : Response → ExtractOut E) (n : Nat)
    (s : Store E) (h : s.res = []) : parse_all ex n s = s := by
  cases n with
  | zero => rfl
  | succ m => simp only [parse_all, h, List.getLast?_nil]

theorem parse_all_singleton {E : Type} (ex : Response → ExtractOut E) (n : Nat)
    (hn : 0 < n) (s : Store E) (r : Response) (h : s.res = [r]) :
    parse_all ex n s =
      { s with res := [], task := s.task ++ (ex r).tasks, req := s.req ++ (ex r).reqs,
               result := s.result ++ (ex r).items,
               yield_err := s.yield_err ++ (ex r).errs } := by
  cases n with
  | zero => omega
  | succ m =>
    have hg : s.res.getLast? = some r := by rw [h]; rfl
    have hd : s.res.dropLast = [] := by rw [h]; rfl
    simp only [parse_all, hg]
    rw [parse_all_nil ex m _ (by simpa using hd)]
    simp [hd]

theorem flushStep_none {E : Type} (args : AppArg) (s : Store E) :
    flushStep false args s = (s, []) := by
  simp [flushStep]

theorem flushStep_no_dispatch_events {E : Type} (hasP : Bool) (args : AppArg)
    (s : Store E) : Event.profileDispatch ∉ (flushStep hasP args s).2 := by
  cases hasP with
  | false => rw [flushStep_none]; simp
  | true =>
    unfold flushStep
    split_ifs <;> simp <;> split_ifs <;> simp

theorem profileDispatchCond_iff (args : AppArg) (plen now : Nat) :
    profileDispatchCond args plen now = true ↔
      (plen ≤ args.profile_min ∨
        (args.profile_min < plen ∧ plen ≤ args.profile_max ∧ now % 3 = 1)) := by
  simp only [profileDispatchCond, Bool.or_eq_true, Bool.and_eq_true,
    Bool.not_eq_true', decide_eq_true_eq, decide_eq_false_iff_not, Nat.not_le]
  tauto

/-- C7: on a Running tick that passes the termination check and completes without
the profile-gate fault, a profile-acquisition batch is dispatched (and registered
in `fut_profile`) iff the Profile pool size is at or below `profile_min`, or lies
strictly between `profile_min` and at most `profile_max` while the
one-tick-in-three throttle `now % 3 = 1` holds; the dispatch is a recorded spawn,
not a join, so it does not block the tick. -/
theorem profile_dispatch_iff {E : Type} (ctx : Ctx E) (hasP : Bool) (args : AppArg)
    (now : Nat) (st : EngState E) (out : EngState E × Bool × List Event)
    (hnd : allDone st.store = false)
    (hok : runningTick ctx hasP args now st = Except.ok out) :
    (Event.profileDispatch ∈ out.2.2 ↔
      (st.store.profile.length ≤ args.profile_min ∨
        (args.profile_min < st.store.profile.length ∧
          st.store.profile.length ≤ args.profile_max ∧ now % 3 = 1))) := by
  rw [← profileDispatchCond_iff args st.store.profile.length now]
  unfold runningTick at hok
  rw [hnd] at hok
  simp only [Bool.false_eq_true, if_false] at hok
  split at hok
  · cases hok
  · cases hok
    rcases hc : profileDispatchCond args st.store.profile.length now with _ | _
    · simp only [hc, if_false]
      constructor
      · intro hm
        rcases List.mem_append.mp hm with hm1 | hm2
        · rcases List.mem_append.mp hm1 with hm3 | hm4
          · simp at hm3
          · simp at hm4
        · exact absurd hm2 (flushStep_no_dispatch_events hasP args _)
      · intro hfalse
        cases hfalse
    · simp [hc]

/-- Witness for `profile_dispatch_iff`: one seed task, empty Profile pool, default
configuration at `now = 0` — the pool is at or below `profile_min`, and the tick's
event list contains the profile dispatch. -/
theorem profile_dispatch_iff_witness :
    Event.profileDispatch ∈ [Event.fetchDispatch, Event.profileDispatch] ↔
      ((List.length ([] : List Profile) ≤ AppArg.default.profile_min ∨
        (AppArg.default.profile_min < List.length ([] : List Profile) ∧
          List.length ([] : List Profile) ≤ AppArg.default.profile_max ∧
          0 % 3 = 1))) :=
  profile_dispatch_iff trivCtx false AppArg.default 0
    ⟨{ emptyStore with task := [{ tag := 5 }] }, [], []⟩
    (⟨{ emptyStore with task := [{ tag := 5 }] },
        [(0, { responses := [] })], []⟩, false,
      [Event.fetchDispatch, Event.profileDispatch])
    rfl rfl

/-- C8: when the Profile pool is strictly below `round_task_min`, the gate pops
and joins the most recently registered in-flight profile operation (the last
element of the registry); with an empty registry the `pop().unwrap()` is a fault
that aborts the run (modelled as `Except.error`) rather than being silently
skipped.  In `runningTick` the gate runs before `Request::gen` mints Requests,
and its fault short-circuits the tick. -/
theorem profile_gate_joins_latest_or_faults (rtm plen : Nat)
    (fp : List (Nat × ProfileOp)) (h : plen < rtm) :
    (fp = [] →
      profileGate rtm plen fp =
        Except.error ("no in-flight profile operation to join")) ∧
    (∀ (l : List (Nat × ProfileOp)) (x : Nat × ProfileOp),
      fp = l ++ [x] → profileGate rtm plen fp = Except.ok (l, x.2.profiles)) := by
  constructor
  · intro hfp
    subst hfp
    unfold profileGate
    rw [if_pos h]
    rfl
  · intro l x hfp
    subst hfp
    unfold profileGate
    rw [if_pos h]
    simp [List.getLast?_concat, List.dropLast_concat]

/-- Witness for `profile_gate_joins_latest_or_faults`: a pool of 0 profiles
against `round_task_min = 7` with one registered operation, which gets joined. -/
theorem profile_gate_joins_latest_or_faults_witness :
    profileGate 7 0 [(0, ({ profiles := [] } : ProfileOp))] =
      Except.ok ([], ([] : List Profile)) :=
  (profile_gate_joins_latest_or_faults 7 0 [(0, { profiles := [] })] (by decide)).2
    [] (0, { profiles := [] }) rfl

/-- C9 counterexample: at the interrupt, one buffered Response whose extraction
yields one new Task; the drain harvests it and the task buffer afterwards differs
from the task buffer at the moment the interrupt was observed, so the drain does
modify the task buffer (through extraction, not the teardown hook). -/
theorem drain_modifies_task_buffer :
    ((drainStep
        { trivCtx with extract := fun _ =>
            { tasks := [{ tag := 3 }], reqs := [], items := [], errs := [] } } false
        ⟨{ emptyStore with res := [{ tag := 0 }] }, [], []⟩).1.store.task ≠
      ({ emptyStore with res := [{ tag := 0 }] } : Store Nat).task) := by
  simp only [drainStep]
  rw [parse_all_singleton _ 99999999 (by norm_num) _ { tag := 0 } (by simp [emptyStore])]
  simp [emptyStore, trivCtx]

/-- C9 (amended): the drain never removes items from the task buffer, the
scheduled-request buffer, the ready-request buffer or the Profile pool, and
persists none of them; the ready buffer and the Profile pool are exactly
preserved, while the task and scheduled-request buffers are at most extended by
the Tasks and Requests that extraction of buffered Responses yields (teardown-hook
effects aside). -/
theorem drain_preserves_unfetched_work {E : Type} (ctx : Ctx E) (hasP : Bool)
    (st : EngState E) :
    ((drainStep ctx hasP st).1.store.req_tmp = st.store.req_tmp) ∧
    ((drainStep ctx hasP st).1.store.profile = st.store.profile) ∧
    (∃ t, (drainStep ctx hasP st).1.store.task = st.store.task ++ t) ∧
    (∃ rq, (drainStep ctx hasP st).1.store.req = st.store.req ++ rq) := by
  obtain ⟨h1, h2, ⟨t, ht⟩, ⟨rq, hr⟩, -, -⟩ :=
    parse_all_frame ctx.extract 99999999
      { st.store with res :=
          st.store.res ++ (st.fut_res.reverse.map (fun p => p.2.responses)).flatten }
  simp only [drainStep]
  cases hasP with
  | false =>
    exact ⟨by simpa using h1, by simpa using h2, ⟨t, by simpa using ht⟩,
      ⟨rq, by simpa using hr⟩⟩
  | true =>
    exact ⟨by simpa using h1, by simpa using h2, ⟨t, by simpa using ht⟩,
      ⟨rq, by simpa using hr⟩⟩

/-- C10: with no supplied Output Pipeline (`pline = None`), the running-tick flush
step hands neither sink to any flush operation — not even the default pipeline —
and leaves the store untouched no matter how far the sinks exceed their
thresholds; extraction only ever appends to the two sinks, so they grow
monotonically; and the shutdown drain is where the default pipeline is invoked,
once per sink, followed by the teardown hook. -/
theorem no_pipeline_no_flush {E : Type} (ctx : Ctx E) (args : AppArg) (n : Nat)
    (s : Store E) (st : EngState E) :
    flushStep false args s = (s, []) ∧
    (∃ a, (parse_all ctx.extract n s).result = s.result ++ a) ∧
    (∃ b, (parse_all ctx.extract n s).yield_err = s.yield_err ++ b) ∧
    (drainStep ctx false st).2 =
      [Event.itemFlush true, Event.errFlush true, Event.teardown] := by
  refine ⟨flushStep_none args s, (parse_all_frame ctx.extract n s).2.2.2.2.1,
    (parse_all_frame ctx.extract n s).2.2.2.2.2, ?_⟩
  simp [drainStep]

end SpideRs
